import Mathlib

/-!
Verification of the rag-agent repository: a shallow embedding of
`src/main.py` (agent configuration, startup credential check, RAGAS
evaluation wiring) and `src/src/client_tools.py` (the geolocation tool),
with theorems settling the behavioural claims about them.

External libraries (ragas, smolagents, geocoder) are abstracted: their
behaviour enters as explicit parameters or, where a claim is about an
external loop the spec describes, as a definition modelled from the spec
and marked as such.
-/

namespace RagAgent

/-! ## Evaluation stage: `evaluate_rag_output` in src/main.py -/

/-- The three RAGAS metrics imported by src/main.py from ragas.metrics. -/
inductive Metric
| faithfulness
| answer_relevancy
| context_recall
deriving DecidableEq, Repr

/-- The string key under which each metric reports its score in the result
mapping returned by the external evaluation library. -/
def Metric.metricName : Metric → String
| Metric.faithfulness => "faithfulness"
| Metric.answer_relevancy => "answer_relevancy"
| Metric.context_recall => "context_recall"

/-- The single-row tabular input assembled by `evaluate_rag_output`:
a `question` column, an `answer` column, and an optional `contexts`
column (present exactly when the caller passed a contexts list).
Each column is a list of cell values, one per row. -/
structure Dataset where
  question : List String
  answer : List String
  contexts : Option (List (List String))
deriving DecidableEq, Repr

/-- The call `evaluate_rag_output` makes to the external `evaluate`
function: the dataset it assembled and the metric list it selected. -/
structure EvalCall where
  dataset : Dataset
  metrics : List Metric
deriving DecidableEq, Repr

/-- Modelled from the spec: the external RAGAS `evaluate` function is not
part of this repository. Per the spec, each metric scoring algorithm is
delegated entirely to the external evaluation library, and the result is a
mapping from metric name to numeric score, one entry per requested metric.
The scoring itself is abstracted as the `scorer` argument. -/
def ragasEvaluate (scorer : Metric → Dataset → Rat) (d : Dataset)
    (ms : List Metric) : List (String × Rat) :=
  ms.map (fun m => (m.metricName, scorer m d))

/-- Embedding of `evaluate_rag_output` from src/main.py: the dataset it
builds and the metric set it selects, before delegating to the external
`evaluate`. If `contexts` is `none` the data dict has only the question
and answer columns and the metric list is `[answer_relevancy]`; otherwise
the data dict also has a contexts column holding the single-row cell
`contexts`, and the metric list is
`[faithfulness, answer_relevancy, context_recall]`. -/
def evaluate_rag_output_call (question answer : String)
    (contexts : Option (List String)) : EvalCall :=
  match contexts with
  | none =>
      { dataset := { question := [question], answer := [answer],
                     contexts := none },
        metrics := [Metric.answer_relevancy] }
  | some cs =>
      { dataset := { question := [question], answer := [answer],
                     contexts := some [cs] },
        metrics := [Metric.faithfulness, Metric.answer_relevancy,
                    Metric.context_recall] }

/-- Embedding of the full `evaluate_rag_output`: assemble the dataset,
select the metrics, delegate to the external evaluation, return its
result mapping. -/
def evaluate_rag_output (scorer : Metric → Dataset → Rat)
    (question answer : String) (contexts : Option (List String)) :
    List (String × Rat) :=
  let call := evaluate_rag_output_call question answer contexts
  ragasEvaluate scorer call.dataset call.metrics

/-! ## Startup sequence of src/main.py -/

/-- Observable actions taken by the module-level statements of
src/main.py after the credential check, in source order: construct the
LiteLLMModel adapter, construct the DuckDuckGoSearchTool, construct the
CodeAgent, run the agent (the first network activity), then call the
evaluation stage. -/
inductive ScriptEvent
| constructModel
| constructSearchTool
| constructAgent
| agentNetworkRun
| evaluationCall
deriving DecidableEq, Repr

/-- Embedding of the module-level credential check of src/main.py: after
`load_dotenv()`, if the key `OPENAI_API_KEY` is not in the process
environment, raise `ValueError` with a descriptive message. -/
def openaiKeyCheck (env : List (String × String)) : Except String Unit :=
  if (env.lookup "OPENAI_API_KEY").isSome then
    Except.ok ()
  else
    Except.error
      "OPENAI_API_KEY environment variable is not set. Please add it to your .env file."

/-- Embedding of the module-level control flow of src/main.py: the
credential check runs first; a raise aborts the script before any of the
later events happen, while a passing check lets the remaining statements
run in source order. The result is the event trace the script performs
after the check, or the fatal error message. -/
def mainScriptEvents (env : List (String × String)) :
    Except String (List ScriptEvent) :=
  match openaiKeyCheck env with
  | Except.error msg => Except.error msg
  | Except.ok _ =>
      Except.ok [ScriptEvent.constructModel, ScriptEvent.constructSearchTool,
                 ScriptEvent.constructAgent, ScriptEvent.agentNetworkRun,
                 ScriptEvent.evaluationCall]

/-! ## Geolocation tool: `get_location` in src/src/client_tools.py -/

/-- The response object returned by the geocoder library for an IP
lookup: an `ok` flag and the resolved city, state and country fields. -/
structure GeoResponse where
  ok : Bool
  city : String
  state : String
  country : String
deriving DecidableEq, Repr

/-- One behaviour of the external geolocation provider during a call:
either it returns a response object, or it raises an exception carrying
a message. -/
inductive GeoOutcome
| response (r : GeoResponse)
| raises (e : String)
deriving DecidableEq, Repr

/-- The call `geocoder.ip` on the literal argument for the callers own
address, under a given provider behaviour: a response, or a raised
exception modelled as `Except.error`. -/
def geocoderIpMe : GeoOutcome → Except String GeoResponse
| GeoOutcome.response r => Except.ok r
| GeoOutcome.raises e => Except.error e

/-- The body of the `try` block of `get_location`: look up the location,
then format the success string when the response is ok and the fallback
string otherwise. An exception raised inside propagates as
`Except.error`. -/
def get_location_try (provider : GeoOutcome) : Except String String := do
  let g ← geocoderIpMe provider
  if g.ok then
    pure ("Your current location is: " ++ g.city ++ ", " ++ g.state
          ++ ", " ++ g.country)
  else
    pure "Unable to determine your location"

/-- Embedding of `get_location` from src/src/client_tools.py: run the
`try` body and convert any exception into the error string
`"Error getting location: "` followed by the exception text. The result
type `Except String String` models what the caller can observe: a
returned string, or a propagated exception. -/
def get_location (provider : GeoOutcome) (query : String) :
    Except String String :=
  match get_location_try provider with
  | Except.ok s => Except.ok s
  | Except.error e => Except.ok ("Error getting location: " ++ e)

/-! ## Context extraction in src/main.py -/

/-- A dynamically typed Python value, as far as the context extraction
inspects it: a string, or anything else. -/
inductive PyVal
| strVal (s : String)
| otherVal
deriving DecidableEq, Repr

/-- One entry of the agent step trace as the extraction sees it: the
step may or may not have an `output` attribute, and when it does the
attribute holds a dynamically typed value. -/
structure AgentStep where
  output : Option PyVal
deriving DecidableEq, Repr

/-- The per-step filter of the extraction comprehension: keep
`step.output` exactly when the attribute exists and holds a string. -/
def stepStringOutput (st : AgentStep) : Option String :=
  match st.output with
  | some (PyVal.strVal s) => some s
  | _ => none

/-- Embedding of the context extraction of src/main.py: inside a `try`,
read `agent.steps` (an inspection of opaque library internals that may
itself raise, modelled as the `Except` argument) and collect the string
outputs of its steps; a bare `except` turns any exception into
`contexts = None`. -/
def extract_contexts (stepsAttr : Except String (List AgentStep)) :
    Option (List String) :=
  match stepsAttr with
  | Except.error _ => none
  | Except.ok steps => some (steps.filterMap stepStringOutput)

/-! ## Worker agent step loop (modelled from the spec) -/

/-- Modelled from the spec: one model decision in the worker agent loop.
The smolagents CodeAgent run loop is external to this repository; per the
spec the agent, at each step, either produces a final answer or selects a
tool action, and a step-limited episode returns whatever partial
best-effort answer the model last produced. Each tool action therefore
carries the draft answer the model holds at that point. -/
inductive ModelOut
| finalAnswer (ans : String)
| toolAct (draft : String)
deriving DecidableEq, Repr

/-- The answer text carried by a model decision. -/
def ModelOut.draftOf : ModelOut → String
| ModelOut.finalAnswer ans => ans
| ModelOut.toolAct draft => draft

/-- Modelled from the spec: the worker agent loop with remaining fuel,
the count of action and observation cycles performed so far, and the last
draft answer. When fuel runs out the episode ends in StepLimitExceeded,
returning the last draft; a final answer ends the episode in Done;
otherwise one action and observation cycle runs and the loop continues. -/
def workerLoop (policy : Nat → ModelOut) :
    Nat → Nat → String → Nat × String
| 0, done, lastDraft => (done, lastDraft)
| fuel+1, done, _lastDraft =>
  match policy done with
  | ModelOut.finalAnswer ans => (done, ans)
  | ModelOut.toolAct draft => workerLoop policy fuel (done + 1) draft

/-- Modelled from the spec: one `run(question)` episode of a worker agent
with the given step bound, returning the number of action and observation
cycles performed and the final answer. -/
def workerRun (policy : Nat → ModelOut) (maxSteps : Nat) : Nat × String :=
  workerLoop policy maxSteps 0 ""

/-! ## Helper lemmas -/

/-- The number of action and observation cycles performed by the worker
loop never exceeds the cycles already done plus the remaining fuel. -/
theorem workerLoop_fst_le (policy : Nat → ModelOut) :
    ∀ fuel done d, (workerLoop policy fuel done d).1 ≤ done + fuel := by
  intro fuel
  induction fuel with
  | zero => intro done d; simp [workerLoop]
  | succ n ih =>
    intro done d
    cases h : policy done with
    | finalAnswer ans =>
      simp [workerLoop, h]
    | toolAct draft =>
      have hih := ih (done + 1) draft
      simp only [workerLoop, h]
      omega

/-! ## Claim theorems -/

/-- C1: for every question string, answer string, and non-empty list of
context strings, `evaluate_rag_output` runs exactly the three metrics
faithfulness, answer_relevancy and context_recall, and the returned
result mapping contains exactly those three keys. -/
theorem claim_c1 (scorer : Metric → Dataset → Rat) (q a : String)
    (cs : List String) (hcs : cs ≠ []) :
    (evaluate_rag_output_call q a (some cs)).metrics =
      [Metric.faithfulness, Metric.answer_relevancy,
       Metric.context_recall] ∧
    (evaluate_rag_output scorer q a (some cs)).map Prod.fst =
      ["faithfulness", "answer_relevancy", "context_recall"] := by
  refine ⟨rfl, ?_⟩
  simp [evaluate_rag_output, evaluate_rag_output_call, ragasEvaluate,
        Metric.metricName]

/-- Witness for C1 at a concrete non-empty contexts list. -/
theorem claim_c1_witness :
    (["ctx"] : List String) ≠ [] ∧
    (evaluate_rag_output (fun _ _ => 0) "q" "a" (some ["ctx"])).map
        Prod.fst =
      ["faithfulness", "answer_relevancy", "context_recall"] :=
  ⟨by simp,
   (claim_c1 (fun _ _ => 0) "q" "a" ["ctx"] (by simp)).2⟩

/-- C2: for every question string and answer string,
`evaluate_rag_output` with `contexts = None` runs only the
answer_relevancy metric and the result mapping contains exactly that
key. -/
theorem claim_c2 (scorer : Metric → Dataset → Rat) (q a : String) :
    (evaluate_rag_output_call q a none).metrics =
      [Metric.answer_relevancy] ∧
    (evaluate_rag_output scorer q a none).map Prod.fst =
      ["answer_relevancy"] := by
  refine ⟨rfl, ?_⟩
  simp [evaluate_rag_output, evaluate_rag_output_call, ragasEvaluate,
        Metric.metricName]

/-- C3: if `OPENAI_API_KEY` is absent from the environment after the
configuration file load, the script raises the descriptive fatal error
and none of the later events (model, tool or agent construction, network
activity) happen; if the variable is present, the check passes and the
script proceeds through them in order. -/
theorem claim_c3 (env : List (String × String)) :
    (env.lookup "OPENAI_API_KEY" = none →
      mainScriptEvents env =
        Except.error
          "OPENAI_API_KEY environment variable is not set. Please add it to your .env file.") ∧
    (env.lookup "OPENAI_API_KEY" ≠ none →
      openaiKeyCheck env = Except.ok () ∧
      mainScriptEvents env =
        Except.ok [ScriptEvent.constructModel,
                   ScriptEvent.constructSearchTool,
                   ScriptEvent.constructAgent,
                   ScriptEvent.agentNetworkRun,
                   ScriptEvent.evaluationCall]) := by
  constructor
  · intro h
    simp [mainScriptEvents, openaiKeyCheck, h]
  · intro h
    have hs : (env.lookup "OPENAI_API_KEY").isSome := by
      cases hl : env.lookup "OPENAI_API_KEY" with
      | none => exact absurd hl h
      | some v => simp
    simp [mainScriptEvents, openaiKeyCheck, hs]

/-- Witness for C3: an empty environment raises the fatal error, and an
environment holding the key proceeds through the full event trace. -/
theorem claim_c3_witness :
    mainScriptEvents [] =
      Except.error
        "OPENAI_API_KEY environment variable is not set. Please add it to your .env file." ∧
    mainScriptEvents [("OPENAI_API_KEY", "k")] =
      Except.ok [ScriptEvent.constructModel,
                 ScriptEvent.constructSearchTool,
                 ScriptEvent.constructAgent,
                 ScriptEvent.agentNetworkRun,
                 ScriptEvent.evaluationCall] :=
  ⟨(claim_c3 []).1 rfl,
   ((claim_c3 [("OPENAI_API_KEY", "k")]).2 (by simp)).2⟩

/-- C4: for every behaviour of the geolocation provider, including a
raised exception, `get_location` returns a string and never propagates
an exception to its caller. -/
theorem claim_c4 (provider : GeoOutcome) (query : String) :
    ∃ s : String, get_location provider query = Except.ok s := by
  rcases provider with ⟨ok, city, st, co⟩ | e
  · cases ok
    · exact ⟨_, rfl⟩
    · exact ⟨_, rfl⟩
  · exact ⟨_, rfl⟩

/-- C5: `get_location` returns the city, state, country string exactly
when the provider response is ok; the fallback string when it is not ok;
and an error string describing the failure when the provider raises. -/
theorem claim_c5 (r : GeoResponse) (e : String) (query : String) :
    (r.ok = true →
      get_location (GeoOutcome.response r) query =
        Except.ok ("Your current location is: " ++ r.city ++ ", "
                   ++ r.state ++ ", " ++ r.country)) ∧
    (r.ok = false →
      get_location (GeoOutcome.response r) query =
        Except.ok "Unable to determine your location") ∧
    get_location (GeoOutcome.raises e) query =
      Except.ok ("Error getting location: " ++ e) := by
  obtain ⟨ok, city, st, co⟩ := r
  refine ⟨?_, ?_, rfl⟩
  · intro h
    subst h
    rfl
  · intro h
    subst h
    rfl

/-- Witness for C5 at concrete ok, not-ok and raising providers. -/
theorem claim_c5_witness :
    get_location (GeoOutcome.response ⟨true, "Paris", "IDF", "FR"⟩) "q" =
      Except.ok ("Your current location is: " ++ "Paris" ++ ", "
                 ++ "IDF" ++ ", " ++ "FR") ∧
    get_location (GeoOutcome.response ⟨false, "", "", ""⟩) "q" =
      Except.ok "Unable to determine your location" ∧
    get_location (GeoOutcome.raises "boom") "q" =
      Except.ok ("Error getting location: " ++ "boom") :=
  ⟨(claim_c5 ⟨true, "Paris", "IDF", "FR"⟩ "boom" "q").1 rfl,
   (claim_c5 ⟨false, "", "", ""⟩ "boom" "q").2.1 rfl,
   (claim_c5 ⟨true, "", "", ""⟩ "boom" "q").2.2⟩

/-- C6: the tabular input assembled by `evaluate_rag_output` has exactly
one row, with question and answer columns always and a contexts column
exactly when contexts is not None, and the function does nothing besides
delegating that dataset and the selected metric set to the external
evaluation. -/
theorem claim_c6 (scorer : Metric → Dataset → Rat) (q a : String)
    (cs : Option (List String)) :
    (evaluate_rag_output_call q a cs).dataset.question = [q] ∧
    (evaluate_rag_output_call q a cs).dataset.answer = [a] ∧
    (cs = none →
      (evaluate_rag_output_call q a cs).dataset.contexts = none) ∧
    (∀ l, cs = some l →
      (evaluate_rag_output_call q a cs).dataset.contexts = some [l]) ∧
    evaluate_rag_output scorer q a cs =
      ragasEvaluate scorer (evaluate_rag_output_call q a cs).dataset
        (evaluate_rag_output_call q a cs).metrics := by
  cases cs <;>
    simp [evaluate_rag_output, evaluate_rag_output_call]

/-- Witness for C6 at concrete inputs, one per branch. -/
theorem claim_c6_witness :
    (evaluate_rag_output_call "q" "a" none).dataset.contexts = none ∧
    (evaluate_rag_output_call "q" "a" (some ["c"])).dataset.contexts =
      some [["c"]] :=
  ⟨(claim_c6 (fun _ _ => 0) "q" "a" none).2.2.1 rfl,
   (claim_c6 (fun _ _ => 0) "q" "a" (some ["c"])).2.2.2.1 ["c"] rfl⟩

/-- C7: an agent with max_steps = 3 never performs more than 3 action
and observation cycles in one episode; a model policy that never
produces a final answer terminates at exactly step 3, returning the last
draft answer the model produced rather than raising an error. -/
theorem claim_c7 (policy : Nat → ModelOut) :
    (workerRun policy 3).1 ≤ 3 ∧
    ((∀ n, ∃ d, policy n = ModelOut.toolAct d) →
      workerRun policy 3 = (3, ModelOut.draftOf (policy 2))) := by
  constructor
  · simpa using workerLoop_fst_le policy 3 0 ""
  · intro h
    obtain ⟨d0, h0⟩ := h 0
    obtain ⟨d1, h1⟩ := h 1
    obtain ⟨d2, h2⟩ := h 2
    simp [workerRun, workerLoop, h0, h1, h2, ModelOut.draftOf]

/-- Witness for C7: a scripted policy that always acts terminates at
exactly step 3 with its last draft answer. -/
theorem claim_c7_witness :
    (workerRun (fun _ => ModelOut.toolAct "draft") 3).1 ≤ 3 ∧
    workerRun (fun _ => ModelOut.toolAct "draft") 3 = (3, "draft") := by
  have h := claim_c7 (fun _ => ModelOut.toolAct "draft")
  refine ⟨h.1, ?_⟩
  have h2 := h.2 (fun n => ⟨"draft", rfl⟩)
  simpa [ModelOut.draftOf] using h2

/-- C8: calling `evaluate_rag_output` with contexts equal to the empty
list (not None) takes the contexts-present branch: the dataset carries a
contexts column holding the empty list and all three metrics run,
because the branch condition only tests for None. -/
theorem claim_c8 (scorer : Metric → Dataset → Rat) (q a : String) :
    (evaluate_rag_output_call q a (some [])).metrics =
      [Metric.faithfulness, Metric.answer_relevancy,
       Metric.context_recall] ∧
    (evaluate_rag_output_call q a (some [])).dataset.contexts =
      some [[]] ∧
    (evaluate_rag_output scorer q a (some [])).map Prod.fst =
      ["faithfulness", "answer_relevancy", "context_recall"] := by
  refine ⟨rfl, rfl, ?_⟩
  simp [evaluate_rag_output, evaluate_rag_output_call, ragasEvaluate,
        Metric.metricName]

/-- C9: the context extraction is total: it yields None exactly when
inspecting the step trace raises, and otherwise a list in which every
element is a string output of some step; it never propagates an
exception. -/
theorem claim_c9 (stepsAttr : Except String (List AgentStep)) :
    (∀ e, stepsAttr = Except.error e →
      extract_contexts stepsAttr = none) ∧
    (∀ steps, stepsAttr = Except.ok steps →
      ∃ l, extract_contexts stepsAttr = some l ∧
        ∀ x ∈ l, ∃ st ∈ steps,
          st.output = some (PyVal.strVal x)) := by
  constructor
  · rintro e rfl
    rfl
  · rintro steps rfl
    refine ⟨steps.filterMap stepStringOutput, rfl, ?_⟩
    intro x hx
    rcases List.mem_filterMap.mp hx with ⟨st, hst, hout⟩
    refine ⟨st, hst, ?_⟩
    cases hso : st.output with
    | none => simp [stepStringOutput, hso] at hout
    | some v =>
      cases v with
      | strVal s =>
        simp [stepStringOutput, hso] at hout
        rw [hout]
      | otherVal => simp [stepStringOutput, hso] at hout

/-- Witness for C9: a raising inspection yields None, and a concrete
step trace yields a list whose every element is a string step output. -/
theorem claim_c9_witness :
    extract_contexts (Except.error "boom") = none ∧
    ∃ l,
      extract_contexts
          (Except.ok [AgentStep.mk (some (PyVal.strVal "snippet")),
                      AgentStep.mk none,
                      AgentStep.mk (some PyVal.otherVal)]) = some l ∧
      ∀ x ∈ l, ∃ st ∈ [AgentStep.mk (some (PyVal.strVal "snippet")),
                       AgentStep.mk none,
                       AgentStep.mk (some PyVal.otherVal)],
        st.output = some (PyVal.strVal x) :=
  ⟨(claim_c9 (Except.error "boom")).1 "boom" rfl,
   (claim_c9 _).2 _ rfl⟩

/-- C10: the result of `get_location` does not depend on its query
argument: under the same provider behaviour, any two query strings give
the same return value. -/
theorem claim_c10 (provider : GeoOutcome) (q1 q2 : String) :
    get_location provider q1 = get_location provider q2 := rfl

end RagAgent
